import Mathlib

/-!
Verification of the applogs-timeseries-mongodb utility: a synthetic log
generator (`scripts/generate_logs.py`) and a search web service
(`webapp/app.py`).  The Python source is embedded shallowly: the pseudo-random
draws of the generator become explicit parameters (an index for each
`random.choice`, the drawn integers for each `random.randint`, a boolean for
each probability roll), the store becomes explicit parameters describing the
outcome of each store call, and each process is modelled as a pure function
from its inputs to the list of effects it performs plus its outcome.
-/

/-- Configuration mapping read from the environment (`load_config` in
`scripts/generate_logs.py`, `os.getenv` calls in `webapp/app.py`); `none`
models an unset environment variable. -/
structure Config where
  mongoUri : Option String
  dbName : Option String
  collName : Option String
  timeField : Option String
  metaField : Option String
  deriving Repr, DecidableEq

/-- Truthiness of an optional environment string as the Python
expression `all([mongo_uri, db_name, coll_name, time_field, meta_field])` sees it:
`None` (unset) and the empty string are both falsy. -/
def truthy : Option String → Bool
  | none => false
  | some s => s != ""

/-- `all([mongo_uri, db_name, coll_name, time_field, meta_field])` from
`generate_logs.py` line 128. -/
def configComplete (c : Config) : Bool :=
  truthy c.mongoUri && truthy c.dbName && truthy c.collName &&
    truthy c.timeField && truthy c.metaField

/-- Timestamp drawn in `uniform` mode (`generate_logs.py` line 159):
`datetime.datetime.now() - datetime.timedelta(days=random.randint(0, 7),
seconds=random.randint(0, 86400))`, in seconds since the epoch.  `now` is the
clock reading at the moment of the draw; `days` and `seconds` are the two
`randint` results (the `randint` bounds in Python are inclusive, so `days ≤ 7` and
`seconds ≤ 86400`). -/
def uniformTimestamp (now : ℤ) (days seconds : ℕ) : ℤ :=
  now - ((days : ℤ) * 86400 + (seconds : ℤ))

/-- Timestamp drawn in `recent` mode (`generate_logs.py` lines 153-157):
with the 80% roll true, `now - timedelta(seconds=randint(0, 3600))`;
otherwise `now - timedelta(days=randint(1, 7), seconds=randint(0, 86400))`. -/
def recentTimestamp (now : ℤ) (roll80 : Bool) (recentSeconds days seconds : ℕ) : ℤ :=
  if roll80 then now - (recentSeconds : ℤ)
  else now - ((days : ℤ) * 86400 + (seconds : ℤ))

/-- `random.choice(l)`: a uniformly drawn element of `l`, modelled by an
explicit draw index `i` reduced modulo the length.  Python raises on an empty
list; the model returns the default `d` there (no caller passes an empty
list: `argparse` with `nargs` "+" guarantees non-empty argument lists and the
literal candidate lists below are non-empty). -/
def choiceD {α : Type} (l : List α) (d : α) (i : ℕ) : α :=
  match l with
  | [] => d
  | a :: r => (a :: r).get ⟨i % (a :: r).length, Nat.mod_lt _ (Nat.succ_pos _)⟩

/-- Candidate log levels (`generate_logs.py` line 65). -/
def levels : List String := ["INFO", "DEBUG", "WARN", "ERROR", "FATAL"]

/-- Candidate logger names (`generate_logs.py` lines 66-73). -/
def loggers : List String :=
  ["com.example.service.UserService",
   "com.example.repository.ProductRepository",
   "com.example.controller.OrderController",
   "org.springframework.web.servlet.DispatcherServlet"]

/-- Candidate thread names (`generate_logs.py` line 74). -/
def threads : List String :=
  ["http-nio-8080-exec-1", "http-nio-8080-exec-2", "task-scheduler-1"]

/-- Candidate HTTP methods (`generate_logs.py` line 78). -/
def methods : List String := ["GET", "POST", "PUT", "DELETE"]

/-- Candidate HTTP statuses (`generate_logs.py` line 79). -/
def statuses : List ℕ := [200, 201, 400, 401, 403, 404, 500, 502]

/-- The pseudo-random draws consumed by one `build_log_document` call: one
choice index per `random.choice`, the `randint(10, 2000)` latency, the
`random.random() < 0.7` stack roll, and the Faker-generated free texts. -/
structure GenRand where
  levelIdx : ℕ
  loggerIdx : ℕ
  threadIdx : ℕ
  methodIdx : ℕ
  statusIdx : ℕ
  latency : ℕ
  stackRoll : Bool
  message : String
  uri : String
  traceId : String
  spanId : String
  stackText : String
  deriving Repr, DecidableEq

/-- The `meta` sub-document of a log record. -/
structure LogMeta where
  app : String
  host : String
  env : String
  deriving Repr, DecidableEq

/-- One generated log document (the dict built by `build_log_document`).
`stack` is `none` when the key is absent. -/
structure LogDoc where
  timestamp : ℤ
  meta : LogMeta
  level : String
  logger : String
  thread : String
  message : String
  uri : String
  method : String
  status : ℕ
  latency_ms : ℕ
  traceId : String
  spanId : String
  stack : Option String
  deriving Repr, DecidableEq

/-- `build_log_document(fake, app_name, host, env, timestamp)`
(`generate_logs.py` lines 64-104), with the random/Faker draws passed in
explicitly as `r`. -/
def build_log_document (r : GenRand) (app_name host env : String) (timestamp : ℤ) : LogDoc :=
  let log_level := choiceD levels "" r.levelIdx
  let logger_name := choiceD loggers "" r.loggerIdx
  let thread_name := choiceD threads "" r.threadIdx
  let method := choiceD methods "" r.methodIdx
  let status := choiceD statuses 0 r.statusIdx
  { timestamp := timestamp
    meta := { app := app_name, host := host, env := env }
    level := log_level
    logger := logger_name
    thread := thread_name
    message := r.message
    uri := r.uri
    method := method
    status := status
    latency_ms := r.latency
    traceId := r.traceId
    spanId := r.spanId
    stack :=
      if (log_level == "ERROR" || log_level == "FATAL") && r.stackRoll then some r.stackText
      else none }

/-- One iteration of the record loop of the generator (`generate_logs.py` lines
147-161): app, host and env are drawn independently from the caller-supplied
candidate lists, then `build_log_document` is called. -/
def genRecord (r : GenRand) (apps hosts envs : List String) (ai hi ei : ℕ) (ts : ℤ) : LogDoc :=
  build_log_document r (choiceD apps "" ai) (choiceD hosts "" hi) (choiceD envs "" ei) ts

/-- Effects the generator CLI performs, in order: printed messages and store
interactions (connect attempt, collection creation, index creation, bulk
insert, closing the client). -/
inductive GEvent where
  | printMsg (s : String)
  | connectAttempt
  | createCollection
  | createIndexes
  | insertMany (n : ℕ)
  | closeConn
  deriving Repr, DecidableEq

/-- The message printed by `main` when the configuration is incomplete
(`generate_logs.py` line 129). -/
def missingConfigMsg : String :=
  "Error: Missing one or more MongoDB configuration variables in .env"

/-- The message printed when the connection fails (`generate_logs.py`
line 134). -/
def connectFailedGenMsg : String := "Failed to connect to MongoDB. Exiting."

/-- Effect trace of `main` in `generate_logs.py` (lines 107-171).  `connOk`
is whether the ping in `get_mongo_client` succeeds, `collOk` whether
`create_collection` succeeds (a failure is caught and only logged, lines
47-50), `idxOk` likewise for index creation (lines 60-61), `insertOk` for
`insert_many` (lines 165-169), and `count` is `args.count`.  Printed texts
other than the two checked messages are abbreviated. -/
def generatorMain (c : Config) (connOk collOk idxOk insertOk : Bool) (count : ℕ) : List GEvent :=
  if !(configComplete c) then [GEvent.printMsg missingConfigMsg]
  else if !connOk then [GEvent.connectAttempt, GEvent.printMsg connectFailedGenMsg]
  else
    [GEvent.connectAttempt, GEvent.printMsg "MongoDB connection successful!",
     GEvent.createCollection,
     GEvent.printMsg (if collOk then "Time-series collection created."
       else "Collection already exists or error ensuring it."),
     GEvent.createIndexes,
     GEvent.printMsg (if idxOk then "Ensured indexes." else "Error creating meta indexes.")]
    ++ (if count != 0 then
          [GEvent.insertMany count,
           GEvent.printMsg (if insertOk then "Inserted logs." else "Error inserting logs.")]
        else [])
    ++ [GEvent.closeConn]

/-- A parsed `datetime.datetime` value.  The two accepted input formats carry
at most minute resolution, so smaller fields are not modelled. -/
structure DT where
  year : ℕ
  month : ℕ
  day : ℕ
  hour : ℕ
  minute : ℕ
  deriving Repr, DecidableEq

/-- Minute-resolution encoding of a datetime, strictly monotone in the
lexicographic field order for field values in their calendar ranges; used to
compare datetimes the way the store compares stored timestamps. -/
def DT.encode (t : DT) : ℕ :=
  (((t.year * 13 + t.month) * 32 + t.day) * 24 + t.hour) * 60 + t.minute

/-- Comparison of datetimes (the ordering the store applies to the timestamp field). -/
def dtLe (a b : DT) : Bool := decide (a.encode ≤ b.encode)

/-- Numeric value of a decimal digit character. -/
def digitVal (c : Char) : ℕ := c.toNat - '0'.toNat

/-- The `%Y` directive of `strptime`: exactly four decimal digits. -/
def parse4 : List Char → Option (ℕ × List Char)
  | a :: b :: c :: d :: rest =>
    if a.isDigit ∧ b.isDigit ∧ c.isDigit ∧ d.isDigit then
      some (((digitVal a * 10 + digitVal b) * 10 + digitVal c) * 10 + digitVal d, rest)
    else none
  | _ => none

/-- The one-or-two-digit numeric directives of `strptime` (`%m`, `%d`, `%H`,
`%M`): two digits whose value lies in `[lo, hi]` are preferred, else a single
digit in `[lo, hi]`; this value-range check coincides with the
per-directive regular expressions of CPython for the four directives used here. -/
def parse2or1 (lo hi : ℕ) : List Char → Option (ℕ × List Char)
  | a :: b :: rest =>
    if a.isDigit ∧ b.isDigit ∧ lo ≤ 10 * digitVal a + digitVal b ∧
        10 * digitVal a + digitVal b ≤ hi then
      some (10 * digitVal a + digitVal b, rest)
    else if a.isDigit ∧ lo ≤ digitVal a ∧ digitVal a ≤ hi then
      some (digitVal a, b :: rest)
    else none
  | [a] =>
    if a.isDigit ∧ lo ≤ digitVal a ∧ digitVal a ≤ hi then some (digitVal a, [])
    else none
  | [] => none

/-- A literal character of the format string. -/
def expectChar (ch : Char) : List Char → Option (List Char)
  | c :: rest => if c = ch then some rest else none
  | [] => none

/-- Gregorian leap-year rule, as used by `datetime`. -/
def isLeapYear (y : ℕ) : Bool := decide (y % 4 = 0 ∧ (y % 100 ≠ 0 ∨ y % 400 = 0))

/-- Number of days in a month. -/
def daysInMonth (y m : ℕ) : ℕ :=
  if m = 2 then (if isLeapYear y then 29 else 28)
  else if m = 4 ∨ m = 6 ∨ m = 9 ∨ m = 11 then 30
  else 31

/-- Validation performed by the `datetime.datetime` constructor after the
format matched: `MINYEAR ≤ year` and the day exists in the month (the month,
hour and minute ranges are already enforced by the directive patterns, and a
four-digit year cannot exceed `MAXYEAR = 9999`). -/
def validDate (y m d : ℕ) : Bool := decide (1 ≤ y ∧ 1 ≤ d ∧ d ≤ daysInMonth y m)

/-- `datetime.datetime.strptime(s, "%Y-%m-%dT%H:%M")` (`webapp/app.py`
line 33), returning `none` where Python raises `ValueError` (including
unconverted trailing input and constructor rejection). -/
def strptimeYmdHM (s : String) : Option DT := do
  let (y, r1) ← parse4 s.toList
  let r2 ← expectChar '-' r1
  let (m, r3) ← parse2or1 1 12 r2
  let r4 ← expectChar '-' r3
  let (d, r5) ← parse2or1 1 31 r4
  let r6 ← expectChar 'T' r5
  let (hh, r7) ← parse2or1 0 23 r6
  let r8 ← expectChar ':' r7
  let (mm, r9) ← parse2or1 0 59 r8
  if r9 = [] ∧ validDate y m d then some ⟨y, m, d, hh, mm⟩ else none

/-- `datetime.datetime.strptime(s, "%Y-%m-%d")` (`webapp/app.py` line 36). -/
def strptimeYmd (s : String) : Option DT := do
  let (y, r1) ← parse4 s.toList
  let r2 ← expectChar '-' r1
  let (m, r3) ← parse2or1 1 12 r2
  let r4 ← expectChar '-' r3
  let (d, r5) ← parse2or1 1 31 r4
  if r5 = [] ∧ validDate y m d then some ⟨y, m, d, 0, 0⟩ else none

/-- `parse_datetime_string` (`webapp/app.py` lines 29-38): an empty (falsy)
string is `None`; otherwise the datetime format is tried first, then the
date-only format, and a string matching neither yields `None` with no error
propagated. -/
def parse_datetime_string (dt_str : String) : Option DT :=
  if dt_str = "" then none
  else
    match strptimeYmdHM dt_str with
    | some d => some d
    | none => strptimeYmd dt_str

/-- Decimal value of a digit list (most significant first). -/
def digitsToNat (ds : List Char) : ℕ := ds.foldl (fun acc c => 10 * acc + digitVal c) 0

/-- Continuation of a digit run in the Python `int` literal grammar: further
digits, with a single underscore allowed only between two digits. -/
def digitsUnderscoreTail : List Char → Bool
  | [] => true
  | '_' :: [] => false
  | '_' :: c :: rest => c.isDigit && digitsUnderscoreTail rest
  | c :: rest => c.isDigit && digitsUnderscoreTail rest

/-- A digit run of the Python `int` literal grammar: one or more decimal
digits with single underscores allowed between digits (so `1_0` reads as 10;
a leading, trailing or doubled underscore is invalid). -/
def digitsUnderscoreOk : List Char → Bool
  | [] => false
  | c :: rest => c.isDigit && digitsUnderscoreTail rest

/-- The Python builtin `int` on a string: surrounding whitespace is stripped,
an optional single sign is allowed, and the rest must be a digit run,
possibly with underscore separators between digits; anything else raises
`ValueError`, modelled as `none`.  (Non-ASCII digits are not modelled.) -/
def pyIntParse (s : String) : Option ℤ :=
  let t := ((s.toList.dropWhile Char.isWhitespace).reverse.dropWhile Char.isWhitespace).reverse
  let signDigits : ℤ × List Char :=
    match t with
    | '+' :: r => (1, r)
    | '-' :: r => (-1, r)
    | r => (1, r)
  if digitsUnderscoreOk signDigits.2 then
    some (signDigits.1 * (digitsToNat (signDigits.2.filter (fun c => c != '_')) : ℤ))
  else none

/-- Page normalization (`webapp/app.py` lines 103-109) on the raw `page`
query value: `int(raw or 1)` with `ValueError` caught as page 1, then pages
below 1 raised to 1. -/
def normalizePageRaw (raw : String) : ℕ :=
  let parsed : Option ℤ := if raw = "" then some 1 else pyIntParse raw
  let p : ℤ := parsed.getD 1
  if p < 1 then 1 else p.toNat

/-- Page normalization applied to the optional `page` query parameter
(`request.args.get("page", "1")`: an absent parameter defaults to `"1"`). -/
def normalizePage (o : Option String) : ℕ := normalizePageRaw (o.getD "1")

/-- `PAGE_SIZE` (`webapp/app.py` line 14). -/
def PAGE_SIZE : ℕ := 50

/-- `total_pages = math.ceil(total_docs / PAGE_SIZE) if total_docs > 0 else 0`
(`webapp/app.py` line 138), with the exact ceiling written as
`(total + 49) / 50` in natural division. -/
def totalPagesOf (total : ℕ) : ℕ :=
  if 0 < total then (total + (PAGE_SIZE - 1)) / PAGE_SIZE else 0

/-- `if total_pages > 0 and page > total_pages: page = total_pages`
(`webapp/app.py` lines 139-140). -/
def clampPage (page tp : ℕ) : ℕ := if 0 < tp ∧ tp < page then tp else page

/-- `skip = (page - 1) * PAGE_SIZE if total_pages != 0 else 0`
(`webapp/app.py` line 142), applied to the already-clamped page. -/
def skipOf (page tp : ℕ) : ℕ := if tp ≠ 0 then (page - 1) * PAGE_SIZE else 0

/-- The `timestamp` entry of the match criteria: optional `$gte` and `$lte`
bounds (`webapp/app.py` lines 116-120). -/
structure TimeCriteria where
  gte : Option DT
  lte : Option DT
  deriving Repr, DecidableEq

/-- The `match_criteria` dict built by the search handler (`webapp/app.py`
lines 112-129); a `none` field is an absent key. -/
structure MatchCriteria where
  level : Option String
  timestamp : Option TimeCriteria
  metaApp : Option String
  metaHost : Option String
  metaEnv : Option String
  deriving Repr, DecidableEq

/-- Python truthiness of the criteria dict (`if match_criteria` /
`match_criteria if match_criteria else {}`): true iff some key is set. -/
def MatchCriteria.isEmptyDict (c : MatchCriteria) : Bool :=
  c.level.isNone && c.timestamp.isNone && c.metaApp.isNone &&
    c.metaHost.isNone && c.metaEnv.isNone

/-- Construction of `match_criteria` (`webapp/app.py` lines 111-129): each
filter key is added only when its value is truthy (a non-empty string), and
the `timestamp` entry only when at least one bound parsed. -/
def buildMatchCriteria (appVal hostVal envVal levelVal : String)
    (start_time end_time : Option DT) : MatchCriteria :=
  { level := if levelVal ≠ "" then some levelVal else none
    timestamp :=
      if start_time.isSome || end_time.isSome then some ⟨start_time, end_time⟩ else none
    metaApp := if appVal ≠ "" then some appVal else none
    metaHost := if hostVal ≠ "" then some hostVal else none
    metaEnv := if envVal ≠ "" then some envVal else none }

/-- A stored record as the matcher of the store sees it: only the fields the
criteria can mention participate in filtering. -/
structure StoredDoc where
  timestamp : DT
  meta : LogMeta
  level : String
  deriving Repr, DecidableEq

/-- Store semantics of one equality criterion: an absent key is no
constraint, a present key demands field equality. -/
def optMatch (o : Option String) (v : String) : Bool :=
  match o with
  | none => true
  | some s => v == s

/-- Store semantics of the `timestamp` criterion: `$gte` and `$lte` are
inclusive bounds, each optional. -/
def timeMatch (o : Option TimeCriteria) (t : DT) : Bool :=
  match o with
  | none => true
  | some tc =>
    (match tc.gte with | none => true | some g => dtLe g t) &&
      (match tc.lte with | none => true | some l => dtLe t l)

/-- Store semantics of the whole criteria dict: the conjunction of its
entries. -/
def matchesDoc (c : MatchCriteria) (d : StoredDoc) : Bool :=
  optMatch c.level d.level && timeMatch c.timestamp d.timestamp &&
    optMatch c.metaApp d.meta.app && optMatch c.metaHost d.meta.host &&
    optMatch c.metaEnv d.meta.env

/-- One stage of the aggregation pipeline (`webapp/app.py` lines 145-151). -/
inductive Stage where
  | matchStage (c : MatchCriteria)
  | sortTimestampDesc
  | skipStage (n : ℕ)
  | limitStage (n : ℕ)
  deriving Repr, DecidableEq

/-- Pipeline construction (`webapp/app.py` lines 145-151): `$match` only for
a non-empty criteria dict, always `$sort {timestamp: -1}`, `$skip` only when
`skip` is truthy (non-zero), always `$limit PAGE_SIZE`. -/
def buildPipeline (c : MatchCriteria) (skip : ℕ) : List Stage :=
  (if !c.isEmptyDict then [Stage.matchStage c] else []) ++
    [Stage.sortTimestampDesc] ++
    (if skip ≠ 0 then [Stage.skipStage skip] else []) ++
    [Stage.limitStage PAGE_SIZE]

/-- Query parameters of one `GET /search` request; `none` is an absent
parameter.  `end_` stands for the `end` query parameter (`end` is reserved
in Lean). -/
structure SearchArgs where
  app : Option String
  host : Option String
  env : Option String
  level : Option String
  start : Option String
  end_ : Option String
  page : Option String
  deriving Repr, DecidableEq

/-- Store interactions performed by one search request, in order. -/
inductive WEvent where
  | connectAttempt
  | countDocs (c : MatchCriteria)
  | aggregateOp (p : List Stage)
  | closeConn
  deriving Repr, DecidableEq

/-- The template variables passed to `render_template("index.html", ...)`.
`end_` stands for the template variable `end`. -/
structure Render where
  results : List StoredDoc
  error : String
  app : String
  host : String
  env : String
  level : String
  start : String
  end_ : String
  page : ℤ
  total : ℕ
  totalPages : ℕ
  pageSize : ℕ
  hasPrev : Bool
  hasNext : Bool
  prevPage : Option ℤ
  nextPage : Option ℤ
  deriving Repr, DecidableEq

/-- How one request to the search handler ends: a rendered page, or an
uncaught exception propagating out of the handler (`crash`). -/
inductive Outcome where
  | crash
  | page (r : Render)
  deriving Repr, DecidableEq

/-- The connection-failure message (`webapp/app.py` line 70). -/
def connectFailedWebMsg : String :=
  "Failed to connect to MongoDB. Check connection string and ensure certifi is installed."

/-- Whether `client[name]` / `db[name]` accepts the name: `pymongo` raises
`TypeError` for `None` (an unset variable) and `InvalidName` for an empty
string, and neither exception is caught by the handler. -/
def validName : Option String → Bool
  | none => false
  | some s => s != ""

/-- The `/search` handler (`webapp/app.py` lines 62-200) after the query
parameters have been read (each filter defaults to the empty string, `page` to `"1"`).
`connOk` is whether the ping in `get_mongo_client` succeeds; `countRes` is the
outcome of `count_documents` (line 134, any exception is caught); `aggRes`
the outcome of `collection.aggregate` (lines 154-157).  The result is the
ordered list of store interactions and the outcome of the handler. -/
def searchCore (cfg : Config) (appVal hostVal envVal levelVal startStr endStr pageRaw : String)
    (connOk : Bool) (countRes : Except Unit ℕ) (aggRes : Except String (List StoredDoc)) :
    List WEvent × Outcome :=
  if !connOk then
    -- line 77: `page=int(request.args.get("page", "1") or 1)` with no
    -- try/except: a non-numeric page raises here
    match (if pageRaw = "" then some 1 else pyIntParse pageRaw) with
    | none => ([WEvent.connectAttempt], Outcome.crash)
    | some p =>
      ([WEvent.connectAttempt], Outcome.page
        { results := [], error := connectFailedWebMsg
          app := appVal, host := hostVal, env := envVal, level := levelVal
          start := startStr, end_ := endStr, page := p
          total := 0, totalPages := 0, pageSize := PAGE_SIZE
          hasPrev := false, hasNext := false, prevPage := none, nextPage := none })
  else if !(validName cfg.dbName && validName cfg.collName) then
    -- lines 90-91: `client[db_name]` / `db[coll_name]` raise uncaught for an
    -- unset or empty DB_NAME / COLL_NAME, after the connection was acquired
    ([WEvent.connectAttempt], Outcome.crash)
  else
    let start_time := parse_datetime_string startStr
    let end_time := parse_datetime_string endStr
    let page0 := normalizePageRaw pageRaw
    let crit := buildMatchCriteria appVal hostVal envVal levelVal start_time end_time
    let total :=
      match countRes with
      | Except.ok n => n
      | Except.error _ => 0
    let tp := totalPagesOf total
    let page := clampPage page0 tp
    let skip := skipOf page tp
    let pipeline := buildPipeline crit skip
    match aggRes with
    | Except.error e =>
      ([WEvent.connectAttempt, WEvent.countDocs crit, WEvent.aggregateOp pipeline,
        WEvent.closeConn],
       Outcome.page
        { results := [], error := "Search failed: " ++ e
          app := appVal, host := hostVal, env := envVal, level := levelVal
          start := startStr, end_ := endStr, page := (page : ℤ)
          total := total, totalPages := tp, pageSize := PAGE_SIZE
          hasPrev := decide (1 < page ∧ 0 < tp), hasNext := decide (0 < tp ∧ page < tp)
          prevPage := if 1 < page ∧ 0 < tp then some ((page : ℤ) - 1) else none
          nextPage := if 0 < tp ∧ page < tp then some ((page : ℤ) + 1) else none })
    | Except.ok docs =>
      ([WEvent.connectAttempt, WEvent.countDocs crit, WEvent.aggregateOp pipeline,
        WEvent.closeConn],
       Outcome.page
        { results := docs, error := ""
          app := appVal, host := hostVal, env := envVal, level := levelVal
          start := startStr, end_ := endStr, page := (page : ℤ)
          total := total, totalPages := tp, pageSize := PAGE_SIZE
          hasPrev := decide (1 < page ∧ 0 < tp), hasNext := decide (0 < tp ∧ page < tp)
          prevPage := if 1 < page ∧ 0 < tp then some ((page : ℤ) - 1) else none
          nextPage := if 0 < tp ∧ page < tp then some ((page : ℤ) + 1) else none })

/-- The `/search` handler on raw request arguments: every filter is read
with `request.args.get(name, "")` and the page with
`request.args.get("page", "1")` before `searchCore` runs. -/
def searchHandler (cfg : Config) (a : SearchArgs) (connOk : Bool)
    (countRes : Except Unit ℕ) (aggRes : Except String (List StoredDoc)) :
    List WEvent × Outcome :=
  searchCore cfg (a.app.getD "") (a.host.getD "") (a.env.getD "") (a.level.getD "")
    (a.start.getD "") (a.end_.getD "") (a.page.getD "1") connOk countRes aggRes

/-- The error string of a rendered outcome (`none` for a crash). -/
def renderError : Outcome → Option String
  | Outcome.crash => none
  | Outcome.page r => some r.error

/-- The page number of a rendered outcome (`none` for a crash). -/
def renderPage : Outcome → Option ℤ
  | Outcome.crash => none
  | Outcome.page r => some r.page

/-- A complete configuration. -/
def cfgFull : Config :=
  { mongoUri := some "mongodb://localhost", dbName := some "logs_db",
    collName := some "app_logs", timeField := some "timestamp", metaField := some "meta" }

/-- A configuration with `TIME_FIELD` unset and everything else in place. -/
def cfgMissingTime : Config :=
  { mongoUri := some "mongodb://localhost", dbName := some "logs_db",
    collName := some "app_logs", timeField := none, metaField := some "meta" }

/-- A configuration with `DB_NAME` unset and everything else in place. -/
def cfgMissingDb : Config :=
  { mongoUri := some "mongodb://localhost", dbName := none,
    collName := some "app_logs", timeField := some "timestamp", metaField := some "meta" }

/-- A request with no query parameters. -/
def emptyArgs : SearchArgs := ⟨none, none, none, none, none, none, none⟩

example : parse_datetime_string "2024-02-29T23:59" = some ⟨2024, 2, 29, 23, 59⟩ := by decide
example : parse_datetime_string "2023-02-29" = none := by decide
example : parse_datetime_string "2024-1-5" = some ⟨2024, 1, 5, 0, 0⟩ := by decide
example : parse_datetime_string "2024-01-01 " = none := by decide
example : parse_datetime_string "0000-01-01" = none := by decide
example : pyIntParse "1_0" = some 10 := by decide
example : pyIntParse " -3 " = some (-3) := by decide
example : pyIntParse "_1" = none := by decide
example : pyIntParse "1_" = none := by decide
example : pyIntParse "1__0" = none := by decide

/-- An element chosen by `choiceD` from a non-empty list belongs to it. -/
theorem choiceD_mem {α : Type} (l : List α) (d : α) (i : ℕ) (h : l ≠ []) :
    choiceD l d i ∈ l := by
  match l with
  | [] => exact absurd rfl h
  | a :: r => exact List.get_mem _ _ _

/-- Claim C1 as stated is false on the code: with the inclusive `randint`
bounds `days = 7` and `seconds = 86400` (both attainable), the uniform-mode
timestamp lands 8 days before `now`, outside the claimed closed interval
`[now - 7 days, now]`.  Concrete refuting input: `now = 0`, `days = 7`,
`seconds = 86400`. -/
theorem c1_uniform_window_counterexample :
    ¬ (∀ (now : ℤ) (days seconds : ℕ), days ≤ 7 → seconds ≤ 86400 →
        now - 7 * 86400 ≤ uniformTimestamp now days seconds ∧
          uniformTimestamp now days seconds ≤ now) := by
  intro h
  have h2 := (h 0 7 86400 le_rfl le_rfl).1
  unfold uniformTimestamp at h2
  omega

/-- Claim C1 (amended): for every batch generated with time-dist=uniform,
the timestamp of every record lies within the closed interval `[now - 8 days, now]`
(not `[now - 7 days, now]`): the code draws `randint(0, 7)` whole days plus
`randint(0, 86400)` seconds, both bounds inclusive, so the offset ranges over
`[0, 8 days]`. -/
theorem c1_uniform_window_amended (now : ℤ) (days seconds : ℕ)
    (hd : days ≤ 7) (hs : seconds ≤ 86400) :
    now - 8 * 86400 ≤ uniformTimestamp now days seconds ∧
      uniformTimestamp now days seconds ≤ now := by
  unfold uniformTimestamp
  omega

/-- Witness for the amended C1 at the concrete draw `now = 0`, `days = 7`,
`seconds = 86400`. -/
theorem c1_uniform_window_witness :
    (0 : ℤ) - 8 * 86400 ≤ uniformTimestamp 0 7 86400 ∧ uniformTimestamp 0 7 86400 ≤ 0 :=
  c1_uniform_window_amended 0 7 86400 le_rfl le_rfl

/-- Claim C6: every record produced by the generator loop has a level among
the five enumerated values, carries exactly the timestamp it was built with,
draws `meta.app`, `meta.host`, `meta.env` from the caller-supplied candidate
lists, and carries a `stack` field only when the level is ERROR or FATAL. -/
theorem c6_record_invariants (r : GenRand) (apps hosts envs : List String)
    (ai hi ei : ℕ) (ts : ℤ) (ha : apps ≠ []) (hh : hosts ≠ []) (he : envs ≠ []) :
    (genRecord r apps hosts envs ai hi ei ts).level ∈ levels ∧
    (genRecord r apps hosts envs ai hi ei ts).timestamp = ts ∧
    (genRecord r apps hosts envs ai hi ei ts).meta.app ∈ apps ∧
    (genRecord r apps hosts envs ai hi ei ts).meta.host ∈ hosts ∧
    (genRecord r apps hosts envs ai hi ei ts).meta.env ∈ envs ∧
    ((genRecord r apps hosts envs ai hi ei ts).stack.isSome = true →
      (genRecord r apps hosts envs ai hi ei ts).level = "ERROR" ∨
        (genRecord r apps hosts envs ai hi ei ts).level = "FATAL") := by
  unfold genRecord build_log_document
  refine ⟨?_, rfl, ?_, ?_, ?_, ?_⟩
  · exact choiceD_mem levels "" r.levelIdx (by decide)
  · exact choiceD_mem apps "" ai ha
  · exact choiceD_mem hosts "" hi hh
  · exact choiceD_mem envs "" ei he
  · intro hstack
    dsimp only at hstack
    split at hstack
    · next hc =>
        simp only [Bool.and_eq_true, Bool.or_eq_true, beq_iff_eq] at hc
        exact hc.1
    · simp at hstack

/-- Witness for C6 at a concrete draw and concrete candidate lists. -/
theorem c6_record_invariants_witness :
    (genRecord ⟨3, 0, 0, 0, 0, 100, true, "m", "/u", "t", "s", "st"⟩
        ["svc-a"] ["host-1"] ["dev"] 0 0 0 5).level ∈ levels ∧
    (genRecord ⟨3, 0, 0, 0, 0, 100, true, "m", "/u", "t", "s", "st"⟩
        ["svc-a"] ["host-1"] ["dev"] 0 0 0 5).timestamp = 5 ∧
    (genRecord ⟨3, 0, 0, 0, 0, 100, true, "m", "/u", "t", "s", "st"⟩
        ["svc-a"] ["host-1"] ["dev"] 0 0 0 5).meta.app ∈ ["svc-a"] ∧
    (genRecord ⟨3, 0, 0, 0, 0, 100, true, "m", "/u", "t", "s", "st"⟩
        ["svc-a"] ["host-1"] ["dev"] 0 0 0 5).meta.host ∈ ["host-1"] ∧
    (genRecord ⟨3, 0, 0, 0, 0, 100, true, "m", "/u", "t", "s", "st"⟩
        ["svc-a"] ["host-1"] ["dev"] 0 0 0 5).meta.env ∈ ["dev"] ∧
    ((genRecord ⟨3, 0, 0, 0, 0, 100, true, "m", "/u", "t", "s", "st"⟩
        ["svc-a"] ["host-1"] ["dev"] 0 0 0 5).stack.isSome = true →
      (genRecord ⟨3, 0, 0, 0, 0, 100, true, "m", "/u", "t", "s", "st"⟩
          ["svc-a"] ["host-1"] ["dev"] 0 0 0 5).level = "ERROR" ∨
        (genRecord ⟨3, 0, 0, 0, 0, 100, true, "m", "/u", "t", "s", "st"⟩
            ["svc-a"] ["host-1"] ["dev"] 0 0 0 5).level = "FATAL") :=
  c6_record_invariants ⟨3, 0, 0, 0, 0, 100, true, "m", "/u", "t", "s", "st"⟩
    ["svc-a"] ["host-1"] ["dev"] 0 0 0 5
    (by decide) (by decide) (by decide)

/-- For a positive total, the natural-division formula of the code is exactly the
ceiling of the exact quotient `total / 50`. -/
theorem totalPagesOf_eq_ceil (t : ℕ) (ht : 0 < t) :
    totalPagesOf t = ⌈(t : ℚ) / 50⌉₊ := by
  have h50 : (0 : ℚ) < 50 := by norm_num
  have hq := Nat.div_add_mod (t + 49) 50
  have hr : (t + 49) % 50 < 50 := Nat.mod_lt _ (by norm_num)
  rw [totalPagesOf, if_pos ht]
  show (t + 49) / 50 = _
  symm
  rw [Nat.ceil_eq_iff (by omega)]
  constructor
  · rw [lt_div_iff h50]
    exact_mod_cast show ((t + 49) / 50 - 1) * 50 < t by omega
  · rw [div_le_iff h50]
    exact_mod_cast show t ≤ (t + 49) / 50 * 50 by omega

/-- Claim C3: `total_pages` is the ceiling of `total / 50` (0 when the total
is 0); a requested page beyond the last page is clamped down to the last
page and one within range is kept; the skip offset is `(page - 1) * 50` for
the clamped page, or 0 when there are no pages; and concretely a total of
125 gives 3 pages, requested page 5 clamps to 3, and page 3 starts at
offset 100. -/
theorem c3_pagination (t p : ℕ) (hp : 1 ≤ p) :
    (0 < t → totalPagesOf t = ⌈(t : ℚ) / 50⌉₊) ∧
    (t = 0 → totalPagesOf t = 0) ∧
    (0 < totalPagesOf t → totalPagesOf t < p →
      clampPage p (totalPagesOf t) = totalPagesOf t) ∧
    (p ≤ totalPagesOf t → clampPage p (totalPagesOf t) = p) ∧
    (totalPagesOf t ≠ 0 →
      skipOf (clampPage p (totalPagesOf t)) (totalPagesOf t) =
        (clampPage p (totalPagesOf t) - 1) * 50) ∧
    (totalPagesOf t = 0 → skipOf (clampPage p (totalPagesOf t)) (totalPagesOf t) = 0) ∧
    totalPagesOf 125 = 3 ∧ clampPage 5 (totalPagesOf 125) = 3 ∧
    skipOf (clampPage 5 (totalPagesOf 125)) (totalPagesOf 125) = 100 := by
  refine ⟨fun ht => totalPagesOf_eq_ceil t ht, ?_, ?_, ?_, ?_, ?_, by decide, by decide, by decide⟩
  · intro h; simp [totalPagesOf, h]
  · intro h1 h2; simp [clampPage, h1, h2]
  · intro h; simp only [clampPage]
    rw [if_neg]; omega
  · intro h; simp [skipOf, h, PAGE_SIZE]
  · intro h; simp [skipOf, h]

/-- Witness for C3 at the concrete total 125 and requested page 5. -/
theorem c3_pagination_witness :
    (0 < 125 → totalPagesOf 125 = ⌈(125 : ℚ) / 50⌉₊) ∧
    (125 = 0 → totalPagesOf 125 = 0) ∧
    (0 < totalPagesOf 125 → totalPagesOf 125 < 5 →
      clampPage 5 (totalPagesOf 125) = totalPagesOf 125) ∧
    (5 ≤ totalPagesOf 125 → clampPage 5 (totalPagesOf 125) = 5) ∧
    (totalPagesOf 125 ≠ 0 →
      skipOf (clampPage 5 (totalPagesOf 125)) (totalPagesOf 125) =
        (clampPage 5 (totalPagesOf 125) - 1) * 50) ∧
    (totalPagesOf 125 = 0 → skipOf (clampPage 5 (totalPagesOf 125)) (totalPagesOf 125) = 0) ∧
    totalPagesOf 125 = 3 ∧ clampPage 5 (totalPagesOf 125) = 3 ∧
    skipOf (clampPage 5 (totalPagesOf 125)) (totalPagesOf 125) = 100 :=
  c3_pagination 125 5 (by norm_num)

/-- Claim C5: a document matches the criteria the handler builds iff it
satisfies every supplied filter: omitted filters (empty strings, unparsed
times) impose no constraint, a supplied start is an inclusive lower bound on
the timestamp, a supplied end an inclusive upper bound. -/
theorem c5_filter_and_composition (appVal hostVal envVal levelVal : String)
    (start_time end_time : Option DT) (d : StoredDoc) :
    matchesDoc (buildMatchCriteria appVal hostVal envVal levelVal start_time end_time) d =
        true ↔
      ((appVal ≠ "" → d.meta.app = appVal) ∧
       (hostVal ≠ "" → d.meta.host = hostVal) ∧
       (envVal ≠ "" → d.meta.env = envVal) ∧
       (levelVal ≠ "" → d.level = levelVal) ∧
       (∀ g, start_time = some g → dtLe g d.timestamp = true) ∧
       (∀ l, end_time = some l → dtLe d.timestamp l = true)) := by
  unfold matchesDoc buildMatchCriteria optMatch timeMatch
  rcases start_time with _ | g <;> rcases end_time with _ | l <;>
    by_cases ha : appVal = "" <;> by_cases hh : hostVal = "" <;>
    by_cases he : envVal = "" <;> by_cases hl : levelVal = "" <;>
    simp_all [beq_iff_eq] <;> tauto

/-- Claim C7: date strings are parsed with the datetime format first and the
date-only format second, the first success winning; a string matching
neither (such as "not-a-date") parses to `None` with no error, and the
criteria built from it coincide with the criteria built from an absent
value. -/
theorem c7_date_fallback (s : String) (d : DT)
    (appVal hostVal envVal levelVal : String) (e : Option DT) :
    parse_datetime_string "" = none ∧
    (strptimeYmdHM s = some d → parse_datetime_string s = some d) ∧
    (s ≠ "" → strptimeYmdHM s = none → parse_datetime_string s = strptimeYmd s) ∧
    parse_datetime_string "not-a-date" = none ∧
    buildMatchCriteria appVal hostVal envVal levelVal
        (parse_datetime_string "not-a-date") e =
      buildMatchCriteria appVal hostVal envVal levelVal
        (parse_datetime_string "") e := by
  have h0 : strptimeYmdHM "" = none := by decide
  have hnad : parse_datetime_string "not-a-date" = none := by decide
  refine ⟨rfl, ?_, ?_, hnad, ?_⟩
  · intro hf
    have hs : s ≠ "" := by
      intro heq; rw [heq, h0] at hf; exact Option.noConfusion hf
    unfold parse_datetime_string
    rw [if_neg hs, hf]
  · intro hs hn
    unfold parse_datetime_string
    rw [if_neg hs, hn]
  · have h1 : parse_datetime_string "" = none := by decide
    rw [hnad, h1]

/-- On the connection-failure path, an unparsable page value makes the
handler raise out of `int(...)` (`webapp/app.py` line 77, no try/except). -/
theorem searchCore_connFail_none (cfg : Config)
    (appVal hostVal envVal levelVal startStr endStr pageRaw : String)
    (cr : Except Unit ℕ) (ar : Except String (List StoredDoc))
    (hv : (if pageRaw = "" then some (1 : ℤ) else pyIntParse pageRaw) = none) :
    (searchCore cfg appVal hostVal envVal levelVal startStr endStr pageRaw
        false cr ar).2 = Outcome.crash := by
  unfold searchCore
  rw [hv]
  rfl

/-- On the connection-failure path, a page value that `int(...)` accepts is
rendered exactly as parsed — no clamping of any kind. -/
theorem searchCore_connFail_some (cfg : Config)
    (appVal hostVal envVal levelVal startStr endStr pageRaw : String)
    (cr : Except Unit ℕ) (ar : Except String (List StoredDoc)) (v : ℤ)
    (hv : (if pageRaw = "" then some (1 : ℤ) else pyIntParse pageRaw) = some v) :
    (searchCore cfg appVal hostVal envVal levelVal startStr endStr pageRaw
        false cr ar).2 =
      Outcome.page
        { results := [], error := connectFailedWebMsg
          app := appVal, host := hostVal, env := envVal, level := levelVal
          start := startStr, end_ := endStr, page := v
          total := 0, totalPages := 0, pageSize := PAGE_SIZE
          hasPrev := false, hasNext := false, prevPage := none, nextPage := none } := by
  unfold searchCore
  rw [hv]
  rfl

/-- Claim C9 as stated is false on the code: on the connection-failure path
the page parameter is parsed with a bare `int(...)` (`webapp/app.py`
line 77), so a request with page "abc" crashes the handler instead of being
treated as page 1, and a request with page "-3" is rendered with page -3,
never raised to 1. -/
theorem c9_page_counterexample :
    (searchHandler cfgFull { emptyArgs with page := some "abc" } false
        (Except.ok 0) (Except.ok [])).2 = Outcome.crash ∧
    renderPage (searchHandler cfgFull { emptyArgs with page := some "-3" } false
        (Except.ok 0) (Except.ok [])).2 = some (-3) := by
  decide

/-- Claim C9 (amended): on the query path (connection succeeded), an absent,
empty, or non-numeric page parameter is treated as page 1 and a parsed page
below 1 is raised to 1 (`webapp/app.py` lines 103-109).  On the
connection-failure path (line 77) an absent or empty page still renders as
page 1, but the parse is unguarded: a non-numeric page value crashes the
request, and a parsed page below 1 is rendered as parsed, not raised to 1. -/
theorem c9_page_default_amended (s : String) (v : ℤ) :
    normalizePage none = 1 ∧
    normalizePage (some "") = 1 ∧
    (pyIntParse s = none → normalizePage (some s) = 1) ∧
    (pyIntParse s = some v → v < 1 → normalizePage (some s) = 1) ∧
    (pyIntParse s = some v → 1 ≤ v → normalizePage (some s) = v.toNat) ∧
    (∀ (cfg : Config) (a : SearchArgs) (cr : Except Unit ℕ)
        (ar : Except String (List StoredDoc)),
      (a.page = none ∨ a.page = some "" →
        ∀ r, (searchHandler cfg a false cr ar).2 = Outcome.page r → r.page = 1) ∧
      (a.page = some s → s ≠ "" → pyIntParse s = none →
        (searchHandler cfg a false cr ar).2 = Outcome.crash) ∧
      (a.page = some s → pyIntParse s = some v →
        ∀ r, (searchHandler cfg a false cr ar).2 = Outcome.page r → r.page = v)) := by
  have hempty : pyIntParse "" = none := by decide
  refine ⟨by decide, by decide, ?_, ?_, ?_, ?_⟩
  · intro hparse
    by_cases hs : s = ""
    · rw [hs]; decide
    · unfold normalizePage normalizePageRaw
      simp [Option.getD, hs, hparse]
  · intro hparse hv
    by_cases hs : s = ""
    · rw [hs] at hparse; rw [hempty] at hparse; exact Option.noConfusion hparse
    · unfold normalizePage normalizePageRaw
      simp [Option.getD, hs, hparse, hv]
  · intro hparse hv
    by_cases hs : s = ""
    · rw [hs] at hparse; rw [hempty] at hparse; exact Option.noConfusion hparse
    · unfold normalizePage normalizePageRaw
      simp [Option.getD, hs, hparse]
      omega
  · intro cfg a cr ar
    refine ⟨?_, ?_, ?_⟩
    · rintro (hpage | hpage) r hr <;>
      · have hv : (if (a.page.getD "1") = "" then some (1 : ℤ)
            else pyIntParse (a.page.getD "1")) = some 1 := by
          rw [hpage]; decide
        have he := searchCore_connFail_some cfg (a.app.getD "") (a.host.getD "")
          (a.env.getD "") (a.level.getD "") (a.start.getD "") (a.end_.getD "")
          (a.page.getD "1") cr ar 1 hv
        unfold searchHandler at hr
        rw [he] at hr
        injection hr with h'
        subst h'
        rfl
    · intro hpage hs hparse
      have hv : (if (a.page.getD "1") = "" then some (1 : ℤ)
          else pyIntParse (a.page.getD "1")) = none := by
        rw [hpage]
        simp [hs, hparse]
      have he := searchCore_connFail_none cfg (a.app.getD "") (a.host.getD "")
        (a.env.getD "") (a.level.getD "") (a.start.getD "") (a.end_.getD "")
        (a.page.getD "1") cr ar hv
      unfold searchHandler
      exact he
    · intro hpage hparse r hr
      have hs : s ≠ "" := by
        intro h0
        rw [h0, hempty] at hparse
        exact Option.noConfusion hparse
      have hv : (if (a.page.getD "1") = "" then some (1 : ℤ)
          else pyIntParse (a.page.getD "1")) = some v := by
        rw [hpage]
        simp [hs, hparse]
      have he := searchCore_connFail_some cfg (a.app.getD "") (a.host.getD "")
        (a.env.getD "") (a.level.getD "") (a.start.getD "") (a.end_.getD "")
        (a.page.getD "1") cr ar v hv
      unfold searchHandler at hr
      rw [he] at hr
      injection hr with h'
      subst h'
      rfl

/-- Every search request attempts the store connection as its first step:
the handler performs no configuration-completeness check at all. -/
theorem searchHandler_always_connects (cfg : Config) (a : SearchArgs) (connOk : Bool)
    (countRes : Except Unit ℕ) (aggRes : Except String (List StoredDoc)) :
    WEvent.connectAttempt ∈ (searchHandler cfg a connOk countRes aggRes).1 := by
  unfold searchHandler searchCore
  rcases connOk with _ | _
  · rcases hpv : (if (a.page.getD "1") = "" then some 1 else pyIntParse (a.page.getD "1"))
      with _ | p <;> simp [hpv]
  · by_cases hv : (validName cfg.dbName && validName cfg.collName) = true
    · rcases aggRes with e | docs <;> simp [hv]
    · simp [hv]

/-- Claim C2 as stated is false on the code: the search service does not
abort on an incomplete configuration.  With `TIME_FIELD` unset (so the
configuration is incomplete) a request still connects, counts, aggregates
and renders a normal page with an empty error string. -/
theorem c2_config_check_counterexample :
    configComplete cfgMissingTime = false ∧
    WEvent.connectAttempt ∈
      (searchHandler cfgMissingTime emptyArgs true (Except.ok 0) (Except.ok [])).1 ∧
    WEvent.countDocs (buildMatchCriteria "" "" "" "" none none) ∈
      (searchHandler cfgMissingTime emptyArgs true (Except.ok 0) (Except.ok [])).1 ∧
    renderError (searchHandler cfgMissingTime emptyArgs true (Except.ok 0) (Except.ok [])).2 =
      some "" := by
  decide

/-- Claim C2 (amended): the generator CLI aborts before any store
interaction, with only the user-visible message printed, whenever any of the
five required values is absent or empty; the search service performs no such
completeness check — it attempts a store connection regardless of the
configuration. -/
theorem c2_config_check_amended :
    (∀ (c : Config) (connOk collOk idxOk insertOk : Bool) (n : ℕ),
      configComplete c = false →
        generatorMain c connOk collOk idxOk insertOk n = [GEvent.printMsg missingConfigMsg]) ∧
    (∀ (c : Config) (a : SearchArgs) (connOk : Bool) (countRes : Except Unit ℕ)
        (aggRes : Except String (List StoredDoc)),
      configComplete c = false →
        WEvent.connectAttempt ∈ (searchHandler c a connOk countRes aggRes).1) := by
  constructor
  · intro c b1 b2 b3 b4 n h
    unfold generatorMain
    rw [h]
    rfl
  · intro c a connOk cr ar _
    exact searchHandler_always_connects c a connOk cr ar

/-- The two halves of the amended C2 at concrete inputs. -/
theorem c2_config_check_witness :
    generatorMain cfgMissingTime true true true true 5 = [GEvent.printMsg missingConfigMsg] ∧
    WEvent.connectAttempt ∈
      (searchHandler cfgMissingTime emptyArgs true (Except.ok 0) (Except.ok [])).1 :=
  ⟨c2_config_check_amended.1 cfgMissingTime true true true true 5 (by decide),
   c2_config_check_amended.2 cfgMissingTime emptyArgs true (Except.ok 0) (Except.ok [])
     (by decide)⟩

/-- Claim C4: when the count operation fails, the handler treats the total
as 0 and the page count as 0, surfaces no error for the count, and still
issues the page-fetch aggregation with skip 0 (no skip stage). -/
theorem c4_count_failsoft (cfg : Config) (a : SearchArgs)
    (aggRes : Except String (List StoredDoc))
    (hdb : validName cfg.dbName = true) (hcoll : validName cfg.collName = true) :
    WEvent.aggregateOp
        (buildPipeline
          (buildMatchCriteria (a.app.getD "") (a.host.getD "") (a.env.getD "")
            (a.level.getD "") (parse_datetime_string (a.start.getD ""))
            (parse_datetime_string (a.end_.getD ""))) 0) ∈
      (searchHandler cfg a true (Except.error ()) aggRes).1 ∧
    (∀ r, (searchHandler cfg a true (Except.error ()) aggRes).2 = Outcome.page r →
      r.total = 0 ∧ r.totalPages = 0) ∧
    (∀ docs r, aggRes = Except.ok docs →
      (searchHandler cfg a true (Except.error ()) aggRes).2 = Outcome.page r →
      r.error = "" ∧ r.results = docs) ∧
    (searchHandler cfg a true (Except.error ()) aggRes).2 ≠ Outcome.crash := by
  have hv : (validName cfg.dbName && validName cfg.collName) = true := by
    rw [hdb, hcoll]; rfl
  unfold searchHandler searchCore
  rcases aggRes with e | docs <;>
    simp [hv, totalPagesOf, clampPage, skipOf]

/-- Witness for C4 at a complete configuration, an empty request and a
successful empty aggregation. -/
theorem c4_count_failsoft_witness :
    WEvent.aggregateOp
        (buildPipeline
          (buildMatchCriteria ((emptyArgs).app.getD "") ((emptyArgs).host.getD "")
            ((emptyArgs).env.getD "") ((emptyArgs).level.getD "")
            (parse_datetime_string ((emptyArgs).start.getD ""))
            (parse_datetime_string ((emptyArgs).end_.getD ""))) 0) ∈
      (searchHandler cfgFull emptyArgs true (Except.error ()) (Except.ok [])).1 ∧
    (∀ r, (searchHandler cfgFull emptyArgs true (Except.error ()) (Except.ok [])).2 =
        Outcome.page r → r.total = 0 ∧ r.totalPages = 0) ∧
    (∀ docs r, (Except.ok [] : Except String (List StoredDoc)) = Except.ok docs →
      (searchHandler cfgFull emptyArgs true (Except.error ()) (Except.ok [])).2 =
        Outcome.page r →
      r.error = "" ∧ r.results = docs) ∧
    (searchHandler cfgFull emptyArgs true (Except.error ()) (Except.ok [])).2 ≠
      Outcome.crash :=
  c4_count_failsoft cfgFull emptyArgs (Except.ok []) (by decide) (by decide)

/-- Claim C8 as stated is false on the code: with `DB_NAME` unset (the
search service never validates its configuration, see C2) a request acquires
the connection, then `client[db_name]` raises an uncaught `TypeError` and
the handler exits without ever closing the connection. -/
theorem c8_connection_leak_counterexample :
    (searchHandler cfgMissingDb emptyArgs true (Except.ok 0) (Except.ok [])).1 =
        [WEvent.connectAttempt] ∧
    (searchHandler cfgMissingDb emptyArgs true (Except.ok 0) (Except.ok [])).2 =
        Outcome.crash ∧
    WEvent.closeConn ∉
      (searchHandler cfgMissingDb emptyArgs true (Except.ok 0) (Except.ok [])).1 := by
  decide

/-- Claim C8 (amended): the generator closes the connection as its final
action on every run that acquires one (any complete configuration, whatever
the collection, index and insert outcomes); the search handler closes the
connection on its modelled exits (aggregation error or success) whenever
`DB_NAME` and `COLL_NAME` are usable names — but a request with `DB_NAME` or
`COLL_NAME` unset or empty exits by an uncaught error with the connection
still open. -/
theorem c8_connection_cleanup_amended :
    (∀ (c : Config) (collOk idxOk insertOk : Bool) (n : ℕ),
      configComplete c = true →
        (generatorMain c true collOk idxOk insertOk n).getLast? = some GEvent.closeConn) ∧
    (∀ (cfg : Config) (a : SearchArgs) (countRes : Except Unit ℕ)
        (aggRes : Except String (List StoredDoc)),
      validName cfg.dbName = true → validName cfg.collName = true →
        WEvent.closeConn ∈ (searchHandler cfg a true countRes aggRes).1) := by
  constructor
  · intro c b2 b3 b4 n h
    unfold generatorMain
    rw [h]
    rw [if_neg (show ¬((!true : Bool) = true) by simp)]
    rw [if_neg (show ¬((!true : Bool) = true) by simp)]
    rw [List.getLast?_append_of_ne_nil _ (show [GEvent.closeConn] ≠ [] by simp)]
    rfl
  · intro cfg a cr ar hdb hcoll
    have hv : (validName cfg.dbName && validName cfg.collName) = true := by
      rw [hdb, hcoll]; rfl
    unfold searchHandler searchCore
    rcases ar with e | docs <;> simp [hv]

/-- The two halves of the amended C8 at concrete inputs. -/
theorem c8_connection_cleanup_witness :
    (generatorMain cfgFull true true true true 3).getLast? = some GEvent.closeConn ∧
    WEvent.closeConn ∈ (searchHandler cfgFull emptyArgs true (Except.ok 0) (Except.ok [])).1 :=
  ⟨c8_connection_cleanup_amended.1 cfgFull true true true 3 (by decide),
   c8_connection_cleanup_amended.2 cfgFull emptyArgs (Except.ok 0) (Except.ok [])
     (by decide) (by decide)⟩

/-- In the connected, valid-names path, a rendered page echoes exactly the
filter strings the handler was given. -/
theorem searchCore_echo (cfg : Config) (appVal hostVal envVal levelVal startStr endStr
    pageRaw : String) (connOk : Bool) (cr : Except Unit ℕ)
    (ar : Except String (List StoredDoc)) (r : Render)
    (h : (searchCore cfg appVal hostVal envVal levelVal startStr endStr pageRaw
        connOk cr ar).2 = Outcome.page r) :
    r.app = appVal ∧ r.host = hostVal ∧ r.env = envVal ∧ r.level = levelVal ∧
      r.start = startStr ∧ r.end_ = endStr := by
  unfold searchCore at h
  rcases cr with u | tn <;> rcases ar with e | docs <;> split at h
  all_goals try split at h
  all_goals dsimp only at h
  all_goals
    first
      | (simp at h
         done)
      | (injection h with h'
         subst h'
         exact ⟨rfl, rfl, rfl, rfl, rfl, rfl⟩)

/-- Claim C10: a filter parameter supplied as the empty string is treated
identically to an absent one — the behaviour of the handler (events and outcome)
is unchanged field by field, the all-empty filter set builds an empty
criteria dict (no constraint), and the rendered response echoes the empty
strings back. -/
theorem c10_empty_filter_equals_absent (cfg : Config) (connOk : Bool)
    (countRes : Except Unit ℕ) (aggRes : Except String (List StoredDoc)) (a : SearchArgs) :
    searchHandler cfg { a with app := some "" } connOk countRes aggRes =
        searchHandler cfg { a with app := none } connOk countRes aggRes ∧
    searchHandler cfg { a with host := some "" } connOk countRes aggRes =
        searchHandler cfg { a with host := none } connOk countRes aggRes ∧
    searchHandler cfg { a with env := some "" } connOk countRes aggRes =
        searchHandler cfg { a with env := none } connOk countRes aggRes ∧
    searchHandler cfg { a with level := some "" } connOk countRes aggRes =
        searchHandler cfg { a with level := none } connOk countRes aggRes ∧
    searchHandler cfg { a with start := some "" } connOk countRes aggRes =
        searchHandler cfg { a with start := none } connOk countRes aggRes ∧
    searchHandler cfg { a with end_ := some "" } connOk countRes aggRes =
        searchHandler cfg { a with end_ := none } connOk countRes aggRes ∧
    (buildMatchCriteria "" "" "" "" (parse_datetime_string "")
        (parse_datetime_string "")).isEmptyDict = true ∧
    (∀ r, (searchHandler cfg
          { a with app := some "", host := some "", env := some "",
                   level := some "", start := some "", end_ := some "" }
          connOk countRes aggRes).2 = Outcome.page r →
      r.app = "" ∧ r.host = "" ∧ r.env = "" ∧ r.level = "" ∧
        r.start = "" ∧ r.end_ = "") := by
  refine ⟨rfl, rfl, rfl, rfl, rfl, rfl, by decide, ?_⟩
  intro r h
  exact searchCore_echo cfg "" "" "" "" "" "" (a.page.getD "1") connOk countRes aggRes r h
